import Mathlib

/-!
Verification development for the bus-data-scraper repository
(`src/utils.py`, `src/scraper.py`).

The Python code is shallowly embedded: pure string manipulation is
translated to functions on `List Char` / `String`; the single-character
regular expressions used by the code (`[_\-\s]+`, `[<>:"/\\|?*]`, `\s+`,
the time-of-day pattern, the `Reg No` pattern, the labelled-field
patterns) are implemented directly as deterministic scanners, which is
faithful because in each of those patterns the adjacent subpatterns use
disjoint character classes so the greedy match never needs to backtrack
(except for the end-of-string corner of `\s*([^\n]+)`, implemented
explicitly below).  Calls into external libraries (`requests`,
`BeautifulSoup`, `urljoin`) are modelled as explicit inputs: a fetch
oracle mapping attempt numbers to transport results, a `Soup` value
carrying the rendered text and the results of the soup queries, and a
URL-resolver function.  Python exceptions raised by those external calls
are modelled with `Except Unit`.
-/

namespace BusScraper

/-- ASCII whitespace as recognised by Python's `\s` and `str.strip()`. -/
def isPySpace (c : Char) : Bool :=
  c = ' ' || c = '\t' || c = '\n' || c = '\r' || c = '\x0b' || c = '\x0c'

/-- Python `str.strip()` on a character list. -/
def pyStrip (l : List Char) : List Char :=
  ((l.dropWhile isPySpace).reverse.dropWhile isPySpace).reverse

/-- Python `str.strip()` on a string. -/
def pyStripStr (s : String) : String := String.mk (pyStrip s.data)

/-- Characters of the class `[_\-\s]` in `clean_time_string`'s
`re.sub(r'[_\-\s]+', '00', ...)`. -/
def isCollapseChar (c : Char) : Bool :=
  c = '_' || c = '-' || isPySpace c

/-- Characters of the class `[_\-\s0]` in `clean_time_string`'s final
`re.match(r'^[_\-\s0]*$', cleaned)` check. -/
def isPlaceholderChar (c : Char) : Bool :=
  c = '_' || c = '-' || isPySpace c || c = '0'

/-- `re.sub` of a one-character-class pattern `X+` by the fixed
replacement `rep`: every maximal run of characters satisfying `p` is
replaced by one copy of `rep`.  The Boolean flag records whether the
scanner is currently inside such a run (so the replacement is emitted
only at the run's first character). -/
def collapseRunsAux (p : Char → Bool) (rep : List Char) :
    Bool → List Char → List Char
  | _, [] => []
  | inRun, c :: rest =>
    if p c then
      (if inRun then [] else rep) ++ collapseRunsAux p rep true rest
    else c :: collapseRunsAux p rep false rest

/-- `re.sub` of a one-character-class pattern `X+` by the fixed
replacement `rep`. -/
def collapseRuns (p : Char → Bool) (rep : List Char) (l : List Char) :
    List Char :=
  collapseRunsAux p rep false l

/-- `utils.clean_time_string` on a character list:
if the input is falsy or strips to empty, return `"00"`; otherwise
replace every `[_\-\s]+` run by the literal `"00"` and, if the result
matches `^[_\-\s0]*$`, return `"00"`, else the substituted string. -/
def cleanTimeL (l : List Char) : List Char :=
  if l.isEmpty || (pyStrip l).isEmpty then ['0', '0']
  else if (collapseRuns isCollapseChar ['0', '0'] (pyStrip l)).all
      isPlaceholderChar then ['0', '0']
  else collapseRuns isCollapseChar ['0', '0'] (pyStrip l)

/-- `utils.clean_time_string`. -/
def clean_time_string (s : String) : String := String.mk (cleanTimeL s.data)

/-- Characters of the class `[<>:"/\\|?*]` removed by
`utils.sanitize_filename`. -/
def isInvalidFileChar (c : Char) : Bool :=
  c = '<' || c = '>' || c = ':' || c = '"' || c = '/' || c = '\\' ||
  c = '|' || c = '?' || c = '*'

/-- `utils.sanitize_filename`: replace each invalid filename character
by `_` (`re.sub(r'[<>:"/\\|?*]', '_', ...)`), then collapse every
whitespace run into a single `_` (`re.sub(r'\s+', '_', ...)`). -/
def sanitize_filename (s : String) : String :=
  String.mk (collapseRuns isPySpace ['_']
    (s.data.map (fun c => if isInvalidFileChar c then '_' else c)))

example : clean_time_string "" = "00" := by decide
example : clean_time_string "   " = "00" := by decide
example : clean_time_string "_ _" = "00" := by decide
example : clean_time_string "9:30 AM" = "9:3000AM" := by decide
example : clean_time_string "10" = "10" := by decide
example : clean_time_string "0_0" = "00" := by decide
example : sanitize_filename "Bus/Name: A*B" = "Bus_Name__A_B" := by decide

/-! ### Helper lemmas about the string utilities -/

theorem dropWhile_eq_self_of_forall {α : Type} (p : α → Bool) (l : List α)
    (h : ∀ c ∈ l, p c = false) : l.dropWhile p = l := by
  cases l with
  | nil => rfl
  | cons a rest =>
    exact List.dropWhile_cons_of_neg (by simp [h a (List.mem_cons_self a rest)])

theorem mem_of_mem_pyStrip {l : List Char} {c : Char} (hc : c ∈ pyStrip l) :
    c ∈ l := by
  unfold pyStrip at hc
  rw [List.mem_reverse] at hc
  have h2 := (List.dropWhile_sublist isPySpace).subset hc
  rw [List.mem_reverse] at h2
  exact (List.dropWhile_sublist isPySpace).subset h2

theorem pyStrip_eq_self {l : List Char}
    (h : ∀ c ∈ l, isPySpace c = false) : pyStrip l = l := by
  unfold pyStrip
  rw [dropWhile_eq_self_of_forall _ _ h]
  rw [dropWhile_eq_self_of_forall _ _ (fun c hc => h c (List.mem_reverse.mp hc))]
  exact List.reverse_reverse l

theorem mem_collapseRunsAux {p : Char → Bool} {rep : List Char} {b : Bool}
    {l : List Char} {c : Char} (hc : c ∈ collapseRunsAux p rep b l) :
    c ∈ rep ∨ (c ∈ l ∧ p c = false) := by
  induction l generalizing b with
  | nil => simp [collapseRunsAux] at hc
  | cons a rest ih =>
    unfold collapseRunsAux at hc
    by_cases hpa : p a = true
    · rw [if_pos hpa, List.mem_append] at hc
      rcases hc with h1 | h2
      · cases b with
        | true => simp at h1
        | false => exact Or.inl h1
      · rcases ih h2 with h | ⟨hm, hp⟩
        · exact Or.inl h
        · exact Or.inr ⟨List.mem_cons_of_mem a hm, hp⟩
    · rw [if_neg hpa, List.mem_cons] at hc
      rcases hc with h1 | h2
      · exact Or.inr ⟨h1 ▸ List.mem_cons_self a rest,
          h1 ▸ Bool.eq_false_iff.mpr hpa⟩
      · rcases ih h2 with h | ⟨hm, hp⟩
        · exact Or.inl h
        · exact Or.inr ⟨List.mem_cons_of_mem a hm, hp⟩

theorem mem_collapseRuns {p : Char → Bool} {rep : List Char}
    {l : List Char} {c : Char} (hc : c ∈ collapseRuns p rep l) :
    c ∈ rep ∨ (c ∈ l ∧ p c = false) :=
  mem_collapseRunsAux hc

theorem collapseRunsAux_eq_self {p : Char → Bool} {rep : List Char}
    {b : Bool} {l : List Char} (h : ∀ c ∈ l, p c = false) :
    collapseRunsAux p rep b l = l := by
  induction l generalizing b with
  | nil => rfl
  | cons a rest ih =>
    unfold collapseRunsAux
    rw [if_neg (by simp [h a (List.mem_cons_self a rest)])]
    rw [ih (fun c hc => h c (List.mem_cons_of_mem a hc))]

theorem collapseRuns_eq_self {p : Char → Bool} {rep : List Char}
    {l : List Char} (h : ∀ c ∈ l, p c = false) :
    collapseRuns p rep l = l :=
  collapseRunsAux_eq_self h

/-- Every character of the output of `clean_time_string`'s substitution
pass is either a `'0'` from the replacement or a non-collapsible
character of the input; in particular it is never an underscore, dash or
whitespace character. -/
theorem collapseRuns_time_no_collapse {l : List Char} {c : Char}
    (hc : c ∈ collapseRuns isCollapseChar ['0', '0'] l) :
    isCollapseChar c = false := by
  rcases mem_collapseRuns hc with h | ⟨_, hp⟩
  · have : c = '0' := by simpa using h
    subst this; decide
  · exact hp

/-- The case analysis of `cleanTimeL`: the result is either the literal
placeholder `"00"` or the substituted string, in the latter case with
the final placeholder check known to be false. -/
theorem cleanTimeL_cases (l : List Char) :
    cleanTimeL l = ['0', '0'] ∨
    (cleanTimeL l = collapseRuns isCollapseChar ['0', '0'] (pyStrip l) ∧
      (collapseRuns isCollapseChar ['0', '0'] (pyStrip l)).all
        isPlaceholderChar = false) := by
  unfold cleanTimeL
  by_cases h1 : (l.isEmpty || (pyStrip l).isEmpty) = true
  · rw [if_pos h1]; exact Or.inl rfl
  · rw [if_neg h1]
    by_cases h2 : (collapseRuns isCollapseChar ['0', '0'] (pyStrip l)).all
        isPlaceholderChar = true
    · rw [if_pos h2]; exact Or.inl rfl
    · rw [if_neg h2]
      exact Or.inr ⟨rfl, Bool.eq_false_iff.mpr h2⟩

/-- A non-empty string without collapsible characters whose placeholder
check fails is a fixed point of `cleanTimeL`. -/
theorem cleanTimeL_fixed (m : List Char)
    (hcol : ∀ c ∈ m, isCollapseChar c = false)
    (hall : m.all isPlaceholderChar = false) : cleanTimeL m = m := by
  have hsp : ∀ c ∈ m, isPySpace c = false := by
    intro c hc
    have := hcol c hc
    unfold isCollapseChar at this
    simp only [Bool.or_eq_false_iff] at this
    exact this.2
  have hstrip : pyStrip m = m := pyStrip_eq_self hsp
  have hne : m ≠ [] := by
    intro h
    subst h
    simp [List.all_nil] at hall
  unfold cleanTimeL
  rw [hstrip]
  rw [if_neg (by simp [List.isEmpty_iff, hne])]
  rw [collapseRuns_eq_self hcol, if_neg (by simp [hall])]

theorem cleanTimeL_idem (l : List Char) :
    cleanTimeL (cleanTimeL l) = cleanTimeL l := by
  rcases cleanTimeL_cases l with h | ⟨h, hall⟩
  · rw [h]; decide
  · rw [h]
    exact cleanTimeL_fixed _ (fun c hc => collapseRuns_time_no_collapse hc) hall

/-! ### Claim C1 -/

/-- C1 counterexample: the input `"9:30 AM"`, an already valid 12-hour
clock time, does *not* pass through `clean_time_string` unchanged. -/
theorem clean_time_valid_time_cex :
    clean_time_string "9:30 AM" ≠ "9:30 AM" := by decide

/-- C1 (amended): for the input string `"9:30 AM"`, `clean_time_string`
returns `"9:3000AM"`: the interior run of whitespace is collapsed into
the literal string `"00"`, so even a valid 12-hour clock time is
altered. -/
theorem clean_time_valid_time_altered :
    clean_time_string "9:30 AM" = "9:3000AM" := by decide

/-! ### Claim C6 -/

/-- C6: `clean_time_string` maps the empty string, any whitespace-only
string, and any string consisting solely of underscores, dashes,
whitespace and zeros (such as `"_ _"`) to exactly the two-character
placeholder `"00"`, never to a concatenation of several `"00"`
tokens. -/
theorem clean_time_placeholder_to_00 (s : String)
    (h : ∀ c ∈ s.data, isPlaceholderChar c = true) :
    clean_time_string s = "00" := by
  unfold clean_time_string
  have : cleanTimeL s.data = ['0', '0'] := by
    rcases cleanTimeL_cases s.data with h1 | ⟨h1, hall⟩
    · exact h1
    · exfalso
      have htrue : (collapseRuns isCollapseChar ['0', '0']
          (pyStrip s.data)).all isPlaceholderChar = true := by
        rw [List.all_eq_true]
        intro c hc
        rcases mem_collapseRuns hc with hr | ⟨hm, _⟩
        · have : c = '0' := by simpa using hr
          subst this; decide
        · exact h c (mem_of_mem_pyStrip hm)
      rw [htrue] at hall
      exact absurd hall (by simp)
  rw [this]

/-- Witness for C6 at the concrete input `"_ _"`. -/
theorem clean_time_placeholder_to_00_witness :
    (∀ c ∈ ("_ _" : String).data, isPlaceholderChar c = true) ∧
    clean_time_string "_ _" = "00" :=
  ⟨by decide, clean_time_placeholder_to_00 "_ _" (by decide)⟩

/-! ### Claim C10 -/

/-- C10: `clean_time_string` is idempotent: applying it twice gives the
same result as applying it once, because its output is either the
placeholder `"00"` or a string free of underscore, dash and whitespace
characters, and it maps each such output to itself. -/
theorem clean_time_idempotent (s : String) :
    clean_time_string (clean_time_string s) = clean_time_string s := by
  unfold clean_time_string
  exact congrArg String.mk (cleanTimeL_idem s.data)

/-! ### Claim C7 -/

/-- C7: `sanitize_filename` maps the literal example `"Bus/Name: A*B"`
to `"Bus_Name__A_B"`; on every whitespace-free input it is exactly the
character-by-character replacement of the invalid filename characters
`< > : " / \ | ? *` by `'_'` (hence no truncation, no deduplication of
underscores from other sources, and no stripping of leading or trailing
underscores); and it collapses every whitespace run into a single
`'_'`. -/
theorem sanitize_filename_behaviour :
    sanitize_filename "Bus/Name: A*B" = "Bus_Name__A_B" ∧
    (∀ s : String, (∀ c ∈ s.data, isPySpace c = false) →
      (sanitize_filename s).data =
        s.data.map (fun c => if isInvalidFileChar c then '_' else c)) ∧
    sanitize_filename "a \t x" = "a_x" ∧
    sanitize_filename "__a__" = "__a__" := by
  refine ⟨by decide, ?_, by decide, by decide⟩
  intro s h
  unfold sanitize_filename
  apply collapseRuns_eq_self
  intro c hc
  rw [List.mem_map] at hc
  rcases hc with ⟨a, ha, hac⟩
  by_cases hia : isInvalidFileChar a = true
  · rw [if_pos hia] at hac
    subst hac; decide
  · rw [if_neg hia] at hac
    subst hac
    exact h a ha

/-- Witness for the quantified part of C7 at a concrete whitespace-free
input. -/
theorem sanitize_filename_behaviour_witness :
    (∀ c ∈ ("N<o>ne" : String).data, isPySpace c = false) ∧
    (sanitize_filename "N<o>ne").data =
      ("N<o>ne" : String).data.map
        (fun c => if isInvalidFileChar c then '_' else c) :=
  ⟨by decide, sanitize_filename_behaviour.2.1 "N<o>ne" (by decide)⟩

/-! ### The listing-card parser (`utils.parse_bus_from_card`) -/

/-- The tail `\s*(AM|PM)` of the time-of-day pattern: skip whitespace
greedily, then require the literal `AM` or `PM` (case-sensitive, as in
the source pattern). -/
def meridiemAfterSpaces (l : List Char) : Bool :=
  match l.dropWhile isPySpace with
  | 'A' :: 'M' :: _ => true
  | 'P' :: 'M' :: _ => true
  | _ => false

/-- The tail `\d{2}\s*(AM|PM)` of the time-of-day pattern. -/
def minutesThenMeridiem (l : List Char) : Bool :=
  match l with
  | a :: b :: rest => a.isDigit && b.isDigit && meridiemAfterSpaces rest
  | _ => false

/-- Whether the pattern `\d{1,2}:\d{2}\s*(AM|PM)` matches starting at
this position (one- or two-digit hour). -/
def timeMatchAt : List Char → Bool
  | c1 :: ':' :: rest => c1.isDigit && minutesThenMeridiem rest
  | c1 :: c2 :: ':' :: rest => c1.isDigit && c2.isDigit && minutesThenMeridiem rest
  | _ => false

/-- `re.search` of the time-of-day pattern: does it match at some
position of the text? -/
def timeSearch : List Char → Bool
  | [] => false
  | c :: rest => timeMatchAt (c :: rest) || timeSearch rest

/-- Leftmost-match `re.search` for a deterministic single-position
matcher: try every start position in order. -/
def searchOption {α : Type} (matchAt : List Char → Option α) :
    List Char → Option α
  | [] => none
  | c :: rest =>
    match matchAt (c :: rest) with
    | some r => some r
    | none => searchOption matchAt rest

/-- Characters of the class `[A-Z0-9]` in the registration pattern. -/
def isRegToken (c : Char) : Bool := ('A' ≤ c && c ≤ 'Z') || c.isDigit

/-- The tail `\s*:\s*([A-Z0-9]+)` of the registration pattern. -/
def captureRegAt (l : List Char) : Option String :=
  match l.dropWhile isPySpace with
  | ':' :: r =>
    match (r.dropWhile isPySpace).takeWhile isRegToken with
    | [] => none
    | cap => some (String.mk cap)
  | _ => none

/-- Whether `Reg No\s*:\s*([A-Z0-9]+)` matches starting at this
position, returning the captured group. -/
def regMatchAt (l : List Char) : Option String :=
  match l with
  | 'R' :: 'e' :: 'g' :: ' ' :: 'N' :: 'o' :: rest => captureRegAt rest
  | _ => none

/-- Python `str.split('\n')`: cut the character list at every newline
(adjacent newlines produce empty pieces, as in Python). -/
def splitNl : List Char → List (List Char)
  | [] => [[]]
  | c :: rest =>
    if c = '\n' then [] :: splitNl rest
    else
      match splitNl rest with
      | [] => [[c]]
      | line :: more => (c :: line) :: more

/-- The per-line preprocessing of `parse_bus_from_card`:
`[line.strip() for line in text.split('\n') if line.strip()]`. -/
def cardLines (text : String) : List String :=
  ((splitNl text.data).map (fun l => String.mk (pyStrip l))).filter
    (fun ln => !(ln == ""))

/-- The `route_info` list of `parse_bus_from_card`: every (stripped,
non-empty) line of the card text on which the time-of-day pattern
matches, in order. -/
def routeTimes (text : String) : List String :=
  (cardLines text).filter (fun ln => timeSearch ln.data)

/-- Model of one listing-card element, carrying the results of the
BeautifulSoup queries `parse_bus_from_card` performs on it: the stripped
text of the first `h4` (if any), the full `get_text()`, and the `href`
and first-image `src` attributes (if present). -/
structure Card where
  h4Text : Option String
  text : String
  href : Option String
  imgSrc : Option String

/-- The dictionary produced by `utils.parse_bus_from_card`; `none`
models an absent key. -/
structure BasicRecord where
  bus_name : Option String := none
  registration_number : Option String := none
  detail_url : Option String := none
  image_url : Option String := none
  departure : Option String := none
  arrival : Option String := none
deriving DecidableEq

/-- `utils.parse_bus_from_card`.  `resolve` models the external
`urljoin('https://wbbus.in', ·)`.  An empty `href`/`src` attribute is
falsy in Python, so it leaves the corresponding key absent. -/
def parse_bus_from_card (resolve : String → String) (card : Card) :
    BasicRecord :=
  { bus_name := card.h4Text,
    registration_number := searchOption regMatchAt card.text.data,
    detail_url :=
      match card.href with
      | some h => if h == "" then none else some (resolve h)
      | none => none,
    image_url :=
      match card.imgSrc with
      | some src => if src == "" then none else some (resolve src)
      | none => none,
    departure :=
      match routeTimes card.text with
      | a :: _ :: _ => some a
      | _ => none,
    arrival :=
      match routeTimes card.text with
      | _ :: b :: _ => some b
      | _ => none }

/-! ### Claim C8 -/

/-- C8: the card parser collects, in order, every line of the card text
matching the 12-hour time pattern (`routeTimes`); with at least two such
lines, `departure` is the first and `arrival` the second; with fewer
than two, both are absent. -/
theorem card_departure_arrival (resolve : String → String) (card : Card) :
    (2 ≤ (routeTimes card.text).length →
      (parse_bus_from_card resolve card).departure =
        (routeTimes card.text)[0]? ∧
      (parse_bus_from_card resolve card).arrival =
        (routeTimes card.text)[1]?) ∧
    ((routeTimes card.text).length < 2 →
      (parse_bus_from_card resolve card).departure = none ∧
      (parse_bus_from_card resolve card).arrival = none) := by
  unfold parse_bus_from_card
  rcases h : routeTimes card.text with _ | ⟨a, _ | ⟨b, rest⟩⟩
  · exact ⟨fun hlen => by simp at hlen, fun _ => ⟨rfl, rfl⟩⟩
  · exact ⟨fun hlen => by simp at hlen, fun _ => ⟨rfl, rfl⟩⟩
  · exact ⟨fun _ => ⟨by simp, by simp⟩,
      fun hlen => by simp only [List.length_cons] at hlen; omega⟩

/-- Witness for C8 on a concrete card whose text holds two time
lines. -/
theorem card_departure_arrival_witness :
    2 ≤ (routeTimes "Foo\n9:30 AM\n10:45 PM\nReg No : WB123").length ∧
    (parse_bus_from_card (fun u => u)
      (Card.mk (some "Foo") "Foo\n9:30 AM\n10:45 PM\nReg No : WB123"
        none none)).departure =
      (routeTimes "Foo\n9:30 AM\n10:45 PM\nReg No : WB123")[0]? ∧
    (parse_bus_from_card (fun u => u)
      (Card.mk (some "Foo") "Foo\n9:30 AM\n10:45 PM\nReg No : WB123"
        none none)).arrival =
      (routeTimes "Foo\n9:30 AM\n10:45 PM\nReg No : WB123")[1]? := by
  refine ⟨by decide, ?_⟩
  exact (card_departure_arrival (fun u => u)
    (Card.mk (some "Foo") "Foo\n9:30 AM\n10:45 PM\nReg No : WB123"
      none none)).1 (by decide)

example :
    routeTimes "Foo\n9:30 AM\n10:45 PM\nReg No : WB123" =
      ["9:30 AM", "10:45 PM"] := by decide

example :
    searchOption regMatchAt ("x Reg No : WB1234AB y" : String).data =
      some "WB1234AB" := by decide

/-! ### The stoppage extractor (`utils.extract_stoppage_info`) -/

/-- Python `sep.join(pieces)`. -/
def joinSep (sep : String) : List String → String
  | [] => ""
  | [x] => x
  | x :: y :: rest => x ++ sep ++ joinSep sep (y :: rest)

/-- The formatted tuple string appended for one stoppage match
`(name, up, down)` of the stoppage pattern:
`f"{name.strip()}, Uptime- {clean(up)}, DownTime- {clean(down)}"`. -/
def stoppageEntry (m : String × String × String) : String :=
  pyStripStr m.1 ++ ", Uptime- " ++ clean_time_string m.2.1 ++
    ", DownTime- " ++ clean_time_string m.2.2

/-- `f"{left.strip()} - {right.strip()}"` for the route regex match. -/
def routeString (rm : String × String) : String :=
  pyStripStr rm.1 ++ " - " ++ pyStripStr rm.2

/-- The dictionary produced by `utils.extract_stoppage_info`; `none`
models an absent key. -/
structure StoppageData where
  all_stoppage : Option String := none
  up_time : Option String := none
  down_time : Option String := none
  route : Option String := none
deriving DecidableEq

/-- `utils.extract_stoppage_info`, parameterised by the results of its
two regex scans over the page text: `matches` is the group-tuple list
returned by `re.findall` of the stoppage pattern
`([A-Za-z\s]+),?\s*Uptime[-\s]*(...),?\s*DownTime[-\s]*(...)`, and
`routeMatch` the group pair of `re.search(r'([A-Z\s]+)\s*-\s*([A-Z\s]+))`
(both scans call into Python's backtracking regex engine, which is
abstracted as these inputs).  Per match, in order, the name is stripped
and both times cleaned with `clean_time_string`; with at least one match
the three stoppage keys are set to the `"; "`- and `", "`-joined lists,
otherwise they stay absent; the route key is set independently. -/
def extract_stoppage_info (ms : List (String × String × String))
    (routeMatch : Option (String × String)) : StoppageData :=
  if ms.isEmpty then
    { route := routeMatch.map routeString }
  else
    { all_stoppage := some (joinSep "; " (ms.map stoppageEntry)),
      up_time := some (joinSep ", "
        (ms.map (fun m => clean_time_string m.2.1))),
      down_time := some (joinSep ", "
        (ms.map (fun m => clean_time_string m.2.2))),
      route := routeMatch.map routeString }

/-! ### Claim C4 -/

/-- C4: with zero stoppage matches all three stoppage fields are absent
(`none`, not empty strings); with one or more matches, `all_stoppage`
is the `"; "`-join of the per-match tuple strings and
`up_time`/`down_time` are the `", "`-joins of the per-match cleaned
times, all three mapped over the same match list in order (so the i-th
elements correspond). -/
theorem stoppage_fields_join (ms : List (String × String × String))
    (routeMatch : Option (String × String)) :
    (ms = [] →
      (extract_stoppage_info ms routeMatch).all_stoppage = none ∧
      (extract_stoppage_info ms routeMatch).up_time = none ∧
      (extract_stoppage_info ms routeMatch).down_time = none) ∧
    (ms ≠ [] →
      (extract_stoppage_info ms routeMatch).all_stoppage =
        some (joinSep "; " (ms.map stoppageEntry)) ∧
      (extract_stoppage_info ms routeMatch).up_time =
        some (joinSep ", "
          (ms.map (fun m => clean_time_string m.2.1))) ∧
      (extract_stoppage_info ms routeMatch).down_time =
        some (joinSep ", "
          (ms.map (fun m => clean_time_string m.2.2)))) := by
  constructor
  · intro h
    subst h
    exact ⟨rfl, rfl, rfl⟩
  · intro h
    unfold extract_stoppage_info
    rw [if_neg (by simp [List.isEmpty_iff, h])]
    exact ⟨rfl, rfl, rfl⟩

/-- Witness for C4, zero-match side at `matches = []` and one-match side
at a single concrete match. -/
theorem stoppage_fields_join_witness :
    (extract_stoppage_info [] none).all_stoppage = none ∧
    (extract_stoppage_info [("Alpha", "10", "20")] none).all_stoppage =
      some (joinSep "; " ([("Alpha", "10", "20")].map stoppageEntry)) :=
  ⟨((stoppage_fields_join [] none).1 rfl).1,
    ((stoppage_fields_join [("Alpha", "10", "20")] none).2
      (by decide)).1⟩

/-! ### Claim C2 -/

/-- The match-tuple list of the stoppage pattern on the C2 example text:
two matches, `"Alpha, Uptime-9:00 AM, DownTime-5:00 PM"` with groups
`("Alpha", "9:00 AM", "5:00 PM")` and `"Beta, Uptime-_ _, DownTime-10"`
with groups `("Beta", "_ _", "10")`. -/
def exampleMatches : List (String × String × String) :=
  [("Alpha", "9:00 AM", "5:00 PM"), ("Beta", "_ _", "10")]

/-- C2 counterexample: on the two example matches the extractor does
*not* return the claimed strings, because `clean_time_string` collapses
the whitespace inside `"9:00 AM"` and `"5:00 PM"` to `"00"`. -/
theorem stoppage_example_cex :
    ¬ ((extract_stoppage_info exampleMatches none).all_stoppage =
        some "Alpha, Uptime- 9:00 AM, DownTime- 5:00 PM; Beta, Uptime- 00, DownTime- 10" ∧
      (extract_stoppage_info exampleMatches none).up_time =
        some "9:00 AM, 00" ∧
      (extract_stoppage_info exampleMatches none).down_time =
        some "5:00 PM, 10") := by decide

/-- C2 (amended): on the two example matches the extractor returns
`all_stoppage = "Alpha, Uptime- 9:0000AM, DownTime- 5:0000PM; Beta,
Uptime- 00, DownTime- 10"`, `up_time = "9:0000AM, 00"` and
`down_time = "5:0000PM, 10"`. -/
theorem stoppage_example_actual :
    (extract_stoppage_info exampleMatches none).all_stoppage =
      some "Alpha, Uptime- 9:0000AM, DownTime- 5:0000PM; Beta, Uptime- 00, DownTime- 10" ∧
    (extract_stoppage_info exampleMatches none).up_time =
      some "9:0000AM, 00" ∧
    (extract_stoppage_info exampleMatches none).down_time =
      some "5:0000PM, 10" := by decide

/-! ### The detail-page parser (`utils.parse_bus_detail`) -/

/-- The tail `\s*([^\n]+)` of the labelled-field patterns at a given
position: skip whitespace greedily, then capture the maximal non-empty
run of non-newline characters.  When the greedy skip hits the end of the
text the regex engine backtracks into the skipped whitespace, so the
capture becomes the last skipped whitespace character that is not a
newline, when one exists. -/
def captureLineAt (l : List Char) : Option String :=
  match l.dropWhile isPySpace with
  | c :: rest => some (String.mk ((c :: rest).takeWhile (fun x => !(x = '\n'))))
  | [] =>
    match (l.filter (fun x => !(x = '\n'))).getLast? with
    | some c => some (String.mk [c])
    | none => none

/-- The tail `\s*([0-9]+)` of the contact-number patterns at a given
position: skip whitespace, then capture the maximal non-empty digit
run. -/
def captureDigitsAt (l : List Char) : Option String :=
  match (l.dropWhile isPySpace).takeWhile Char.isDigit with
  | [] => none
  | ds => some (String.mk ds)

/-- Whether `<label>\s*:<capture-tail>` matches starting at this
position: the literal label, greedy whitespace, a colon, then the
capture tail. -/
def matchLabelAt (label : List Char) (cap : List Char → Option String)
    (l : List Char) : Option String :=
  if label.isPrefixOf l then
    match (l.drop label.length).dropWhile isPySpace with
    | ':' :: r => cap r
    | _ => none
  else none

/-- `re.search(label + r'\s*:\s*([^\n]+)', text)` followed by
`.group(1).strip()`. -/
def searchLabelLine (label : String) (text : List Char) : Option String :=
  (searchOption (matchLabelAt label.data captureLineAt) text).map pyStripStr

/-- `re.search(label + r'\s*:\s*([0-9]+)', text)` followed by
`.group(1).strip()`. -/
def searchLabelDigits (label : String) (text : List Char) : Option String :=
  (searchOption (matchLabelAt label.data captureDigitsAt) text).map pyStripStr

/-- The dictionary produced by `utils.parse_bus_detail`; `none` models
an absent key. -/
structure DetailRecord where
  alternate_name : Option String := none
  agency_name : Option String := none
  bus_type : Option String := none
  contact_number : Option String := none
  alternate_number : Option String := none
  depot_name : Option String := none
  destination : Option String := none
  all_stoppage : Option String := none
  up_time : Option String := none
  down_time : Option String := none
  route : Option String := none
  bus_notes : Option String := none
deriving DecidableEq

/-- Model of one detail page's soup: the rendered text
(`soup.get_text()`), the two regex-scan results consumed by
`extract_stoppage_info`, and the result of the bus-notes lookup
`soup.find(text=re.compile(r'Bus Notes')).parent.get_text()` —
`Except.error ()` when that soup query raises, `Except.ok none` when the
phrase is not found, `Except.ok (some t)` when it yields text `t`. -/
structure Soup where
  text : String
  stoppageMatches : List (String × String × String)
  routeMatch : Option (String × String)
  busNotesParentText : Except Unit (Option String)

/-- The labelled fields, stoppage fields and route collected by
`utils.parse_bus_detail` before its bus-notes step. -/
def detailFieldsOf (soup : Soup) : DetailRecord :=
  { alternate_name := searchLabelLine "Alternate Name" soup.text.data,
    agency_name := searchLabelLine "Agency Name" soup.text.data,
    bus_type := searchLabelLine "Bus Type" soup.text.data,
    contact_number := searchLabelDigits "Contact Number" soup.text.data,
    alternate_number := searchLabelDigits "Alternate Number" soup.text.data,
    depot_name := searchLabelLine "Depot Name" soup.text.data,
    destination := searchLabelLine "Destination" soup.text.data,
    all_stoppage :=
      (extract_stoppage_info soup.stoppageMatches soup.routeMatch).all_stoppage,
    up_time :=
      (extract_stoppage_info soup.stoppageMatches soup.routeMatch).up_time,
    down_time :=
      (extract_stoppage_info soup.stoppageMatches soup.routeMatch).down_time,
    route :=
      (extract_stoppage_info soup.stoppageMatches soup.routeMatch).route }

/-- `utils.parse_bus_detail`.  The whole body runs inside
`try: ... except: return data`: if building the soup or rendering its
text raises (`soupResult = Except.error ()`), the accumulated dictionary
is still empty, so the empty record is returned; if the bus-notes lookup
raises, the fields accumulated before it are returned; otherwise the
bus-notes text (stripped) completes the record. -/
def parse_bus_detail : Except Unit Soup → DetailRecord
  | Except.error _ => {}
  | Except.ok soup =>
    match soup.busNotesParentText with
    | Except.error _ => detailFieldsOf soup
    | Except.ok none => detailFieldsOf soup
    | Except.ok (some t) =>
      { detailFieldsOf soup with bus_notes := some (pyStripStr t) }

/-! ### Claim C5 -/

/-- A detail page on which the bus-notes soup query raises after the
labelled field `Alternate Name` has already been extracted. -/
def notesErrorSoup : Soup :=
  { text := "Alternate Name : Foo\n",
    stoppageMatches := [],
    routeMatch := none,
    busNotesParentText := Except.error () }

/-- C5 counterexample: on `notesErrorSoup` an internal extraction step
raises (the bus-notes lookup), the error is caught, but the returned
record is *not* empty: the alternate name extracted before the error is
kept. -/
theorem parse_detail_error_cex :
    notesErrorSoup.busNotesParentText = Except.error () ∧
    (parse_bus_detail (Except.ok notesErrorSoup)).alternate_name =
      some "Foo" ∧
    parse_bus_detail (Except.ok notesErrorSoup) ≠ ({} : DetailRecord) :=
  ⟨rfl, by decide, by decide⟩

/-- C5 (amended): `parse_bus_detail` never propagates an internal
error: an error while building the soup or rendering its text yields
the empty record, and an error in the bus-notes step yields exactly the
(possibly partial) record of fields accumulated before it. -/
theorem parse_detail_error_policy (soup : Soup)
    (h : soup.busNotesParentText = Except.error ()) :
    parse_bus_detail (Except.error ()) = ({} : DetailRecord) ∧
    parse_bus_detail (Except.ok soup) = detailFieldsOf soup := by
  refine ⟨rfl, ?_⟩
  simp only [parse_bus_detail, h]

/-- Witness for C5 at the concrete soup `notesErrorSoup`. -/
theorem parse_detail_error_policy_witness :
    notesErrorSoup.busNotesParentText = Except.error () ∧
    parse_bus_detail (Except.ok notesErrorSoup) =
      detailFieldsOf notesErrorSoup :=
  ⟨rfl, (parse_detail_error_policy notesErrorSoup rfl).2⟩

/-! ### The fetcher (`utils.fetch_html`) -/

/-- Observable behaviour of one `fetch_html` call: the returned value
(`none` models Python `None`), the number of requests issued, and the
durations of the `sleep` calls made between attempts, in order. -/
structure FetchTrace where
  result : Option String
  attempts : Nat
  sleeps : List Nat
deriving DecidableEq

/-- One loop iteration's request: `env attempt` is what
`requests.get` does on the given attempt — `Except.error ()` models a
raised transport exception, `Except.ok (status, body)` a response.  Only
status 200 yields content; any other status (after logging) and any
exception (after logging) leave the iteration without a result. -/
def attemptResult (env : Nat → Except Unit (Nat × String))
    (attempt : Nat) : Option String :=
  match env attempt with
  | Except.ok sb => if sb.1 = 200 then some sb.2 else none
  | Except.error _ => none

/-- The retry loop of `utils.fetch_html` from iteration `attempt` of
`range(retry_count)` on: a successful attempt returns its body at once;
otherwise the loop sleeps 2 units (except after the last attempt) and
continues; an exhausted loop returns `None`. -/
def fetchGo (env : Nat → Except Unit (Nat × String)) (retry_count : Nat)
    (attempt : Nat) : FetchTrace :=
  if _h : attempt < retry_count then
    match attemptResult env attempt with
    | some body => { result := some body, attempts := 1, sleeps := [] }
    | none =>
      let rest := fetchGo env retry_count (attempt + 1)
      { result := rest.result,
        attempts := rest.attempts + 1,
        sleeps := (if attempt < retry_count - 1 then [2] else []) ++
          rest.sleeps }
  else { result := none, attempts := 0, sleeps := [] }
termination_by retry_count - attempt
decreasing_by omega

/-- `utils.fetch_html url timeout retry_count`, as the trace of its
retry loop over the request oracle `env`. -/
def fetch_html (env : Nat → Except Unit (Nat × String))
    (retry_count : Nat) : FetchTrace :=
  fetchGo env retry_count 0

/-- When every request fails (non-200 status or transport error), the
loop from iteration `attempt` on issues one request per remaining
iteration, sleeps 2 units between consecutive attempts, and returns
`None`. -/
theorem fetchGo_all_fail (env : Nat → Except Unit (Nat × String))
    (retry_count : Nat)
    (hfail : ∀ i sb, env i = Except.ok sb → sb.1 ≠ 200) :
    ∀ n attempt, retry_count - attempt = n →
      fetchGo env retry_count attempt =
        { result := none, attempts := n,
          sleeps := List.replicate (retry_count - 1 - attempt) 2 } := by
  intro n
  induction n with
  | zero =>
    intro attempt ha
    unfold fetchGo
    rw [dif_neg (by omega)]
    have h1 : retry_count - 1 - attempt = 0 := by omega
    rw [h1, List.replicate_zero]
  | succ n ih =>
    intro attempt ha
    have hlt : attempt < retry_count := by omega
    have hstep : attemptResult env attempt = none := by
      unfold attemptResult
      cases henv : env attempt with
      | ok sb =>
        have hne := hfail attempt sb henv
        simp [hne]
      | error e => rfl
    unfold fetchGo
    rw [dif_pos hlt]
    simp only [hstep]
    rw [ih (attempt + 1) (by omega)]
    by_cases hlast : attempt < retry_count - 1
    · rw [if_pos hlast]
      have h2 : retry_count - 1 - attempt = (retry_count - 1 - (attempt + 1)) + 1 := by
        omega
      rw [h2, List.replicate_succ]
      rfl
    · rw [if_neg hlast]
      have h2 : retry_count - 1 - attempt = 0 := by omega
      have h3 : retry_count - 1 - (attempt + 1) = 0 := by omega
      rw [h2, h3]
      rfl

/-! ### Claim C3 -/

/-- C3: when every request yields a non-200 status or a transport
error, `fetch_html` with `retry_count` attempts issues exactly
`retry_count` requests, sleeps 2 time units between consecutive
attempts (`retry_count - 1` sleeps), and returns `None`; being a total
function of the trace, it propagates no exception. -/
theorem fetch_html_all_fail (env : Nat → Except Unit (Nat × String))
    (retry_count : Nat)
    (hfail : ∀ i sb, env i = Except.ok sb → sb.1 ≠ 200) :
    fetch_html env retry_count =
      { result := none, attempts := retry_count,
        sleeps := List.replicate (retry_count - 1) 2 } := by
  unfold fetch_html
  have := fetchGo_all_fail env retry_count hfail retry_count 0 (by omega)
  simpa using this

/-- Witness for C3: an endpoint that always answers status 500, with
`retry_count = 3`: exactly 3 attempts, two sleeps of 2 units, and no
result. -/
theorem fetch_html_all_fail_witness :
    (∀ i sb, (fun _ : Nat =>
        (Except.ok ((500 : Nat), "") : Except Unit (Nat × String)))
        i = Except.ok sb → sb.1 ≠ 200) ∧
    fetch_html (fun _ => Except.ok ((500 : Nat), "")) 3 =
      { result := none, attempts := 3, sleeps := [2, 2] } := by
  constructor
  · intro i sb h
    cases h
    decide
  · have := fetch_html_all_fail (fun _ => Except.ok ((500 : Nat), "")) 3
      (by intro i sb h; cases h; decide)
    simpa using this

/-! ### The orchestrator's record assembly (`scraper.main`) -/

/-- One row of the CSV export, with the fourteen columns written by
`scraper.main` (lines 123–140). -/
structure MergedRecord where
  busName : String
  busNumber : String
  route : String
  allStoppage : String
  stoppageTime : String
  upTime : String
  downTime : String
  alternateName : String
  agencyName : String
  busType : String
  contactNumber : String
  alternateNumber : String
  depotName : String
  destination : String
deriving DecidableEq

/-- Python truthiness of `dict.get(key)` for an optional string: a
missing key (`None`) and the empty string are falsy. -/
def truthy (o : Option String) : Bool :=
  match o with
  | none => false
  | some s => !(s == "")

/-- The per-card record assembly of `scraper.main`: the card is skipped
(`continue`, line 85–87) unless `bus_name` and `registration_number`
are both truthy; otherwise the CSV record is built from the merged
dictionary `{**basic_data, **detail_data}` with
`combined_data.get(key, '')` defaults (lines 123–140).  The two
dictionaries have disjoint key sets, so each column reads from its
source dictionary; the key `stoppage_time` is never set anywhere, so
that column is always `''`. -/
def buildRecord (basic : BasicRecord) (detail : DetailRecord) :
    Option MergedRecord :=
  if truthy basic.bus_name && truthy basic.registration_number then
    some
      { busName := basic.bus_name.getD "",
        busNumber := basic.registration_number.getD "",
        route := detail.route.getD "",
        allStoppage := detail.all_stoppage.getD "",
        stoppageTime := "",
        upTime := detail.up_time.getD "",
        downTime := detail.down_time.getD "",
        alternateName := detail.alternate_name.getD "",
        agencyName := detail.agency_name.getD "",
        busType := detail.bus_type.getD "",
        contactNumber := detail.contact_number.getD "",
        alternateNumber := detail.alternate_number.getD "",
        depotName := detail.depot_name.getD "",
        destination := detail.destination.getD "" }
  else none

/-- The `all_data` list accumulated by `scraper.main`'s loop: one
record appended per card that passes the gate. -/
def emitRecords (items : List (BasicRecord × DetailRecord)) :
    List MergedRecord :=
  items.filterMap (fun bd => buildRecord bd.1 bd.2)

theorem truthy_iff (o : Option String) :
    truthy o = true ↔ ∃ s, o = some s ∧ s ≠ "" := by
  cases o with
  | none => simp [truthy]
  | some s =>
    by_cases h : s = "" <;> simp [truthy, h]

/-! ### Claim C9 -/

/-- C9: a merged record is appended to the result list only when the
card's bus name and registration number are both present and non-empty
(they become the record's first two columns), and every other column
whose source field is absent defaults to the empty string. -/
theorem merged_record_invariant (items : List (BasicRecord × DetailRecord))
    (r : MergedRecord) (hr : r ∈ emitRecords items) :
    r.busName ≠ "" ∧ r.busNumber ≠ "" ∧
    ∃ bd ∈ items,
      bd.1.bus_name = some r.busName ∧
      bd.1.registration_number = some r.busNumber ∧
      buildRecord bd.1 bd.2 = some r ∧
      r.stoppageTime = "" ∧
      (bd.2.route = none → r.route = "") ∧
      (bd.2.all_stoppage = none → r.allStoppage = "") ∧
      (bd.2.up_time = none → r.upTime = "") ∧
      (bd.2.down_time = none → r.downTime = "") ∧
      (bd.2.alternate_name = none → r.alternateName = "") ∧
      (bd.2.agency_name = none → r.agencyName = "") ∧
      (bd.2.bus_type = none → r.busType = "") ∧
      (bd.2.contact_number = none → r.contactNumber = "") ∧
      (bd.2.alternate_number = none → r.alternateNumber = "") ∧
      (bd.2.depot_name = none → r.depotName = "") ∧
      (bd.2.destination = none → r.destination = "") := by
  unfold emitRecords at hr
  rw [List.mem_filterMap] at hr
  rcases hr with ⟨bd, hbd, hbuild⟩
  unfold buildRecord at hbuild
  by_cases hgate : (truthy bd.1.bus_name && truthy bd.1.registration_number) = true
  · rw [if_pos hgate] at hbuild
    rw [Bool.and_eq_true] at hgate
    rcases (truthy_iff _).mp hgate.1 with ⟨nm, hnm, hnme⟩
    rcases (truthy_iff _).mp hgate.2 with ⟨rg, hrg, hrge⟩
    have hrv := hbuild
    injection hrv with hrv
    subst hrv
    refine ⟨by simp [hnm, hnme], by simp [hrg, hrge], bd, hbd, ?_⟩
    refine ⟨by simp [hnm], by simp [hrg], ?_, rfl, ?_⟩
    · unfold buildRecord
      rw [if_pos (by rw [Bool.and_eq_true]; exact hgate)]
    · refine ⟨fun h => by simp [h], fun h => by simp [h], fun h => by simp [h],
        fun h => by simp [h], fun h => by simp [h], fun h => by simp [h],
        fun h => by simp [h], fun h => by simp [h], fun h => by simp [h],
        fun h => by simp [h], fun h => by simp [h]⟩
  · rw [if_neg hgate] at hbuild
    exact absurd hbuild (by simp)

/-- A concrete card result passing the gate, and the record it emits. -/
def sampleBasic : BasicRecord :=
  { bus_name := some "Volvo 9400", registration_number := some "WB231234" }

/-- The record emitted for `sampleBasic` with an empty detail record. -/
def sampleMerged : MergedRecord :=
  { busName := "Volvo 9400", busNumber := "WB231234", route := "",
    allStoppage := "", stoppageTime := "", upTime := "", downTime := "",
    alternateName := "", agencyName := "", busType := "",
    contactNumber := "", alternateNumber := "", depotName := "",
    destination := "" }

/-- Witness for C9 on the one-card list `[(sampleBasic, {})]`. -/
theorem merged_record_invariant_witness :
    sampleMerged ∈ emitRecords [(sampleBasic, {})] ∧
    sampleMerged.busName ≠ "" ∧ sampleMerged.busNumber ≠ "" :=
  ⟨by decide,
    (merged_record_invariant [(sampleBasic, {})] sampleMerged (by decide)).1,
    (merged_record_invariant [(sampleBasic, {})] sampleMerged (by decide)).2.1⟩

end BusScraper
